import Mathlib

/-!
Verification of the automation orchestration core of the sma-backend
repository: the scheduled-publication executor, the engagement auto-reply
engine, and the notification delivery subsystem.  Python services are
shallowly embedded as pure Lean functions; database tables become lists of
rows, wall-clock times become integers counted in minutes, and the external
collaborators (image generator, platform publisher, account store) become
explicit oracle values passed in an environment record.
-/

/-- Apostrophe character, used to build string literals that contain one. -/
def apos : String := String.singleton (Char.ofNat 39)

/-- Python substring test on char lists: `needle in haystack`. -/
def charsInfix (n : List Char) : List Char → Bool
  | [] => n.isEmpty
  | c :: t => n.isPrefixOf (c :: t) || charsInfix n t

/-- Python `needle in hay` for strings. -/
def strContains (hay needle : String) : Bool :=
  charsInfix needle.data hay.data

/-- Python `str.lower()`, computed on the underlying char list so that it
reduces definitionally. -/
def strToLower (s : String) : String := String.mk (s.data.map Char.toLower)

/-- Python `str.strip()` on a char list. -/
def trimChars (l : List Char) : List Char :=
  ((l.dropWhile (fun c => c.isWhitespace)).reverse.dropWhile
    (fun c => c.isWhitespace)).reverse

/-- Python truthiness of an optional string: present and non-empty. -/
def optTruthy (o : Option String) : Bool :=
  !(o.getD "").data.isEmpty

/- ## Engagement reply ledger (instagram_service.py, instagram_auto_reply_log.py)

`InstagramAutoReplyLog` has a UNIQUE constraint on `comment_id`; the table is
modelled as a list of rows and an insert that fails on a duplicate key. -/

/-- A row of the `instagram_auto_reply_log` table. -/
structure ReplyLogRow where
  comment_id : String
  instagram_user_id : String
deriving DecidableEq, Repr

/-- Embeds `has_auto_reply` from instagram_service.py: a row for the
(comment id, instagram user id) pair exists. -/
def has_auto_reply (cid uid : String) (logs : List ReplyLogRow) : Bool :=
  logs.any (fun l => l.comment_id == cid && l.instagram_user_id == uid)

/-- Row insert honouring the UNIQUE constraint on `comment_id`. -/
def insertReplyLog (r : ReplyLogRow) (logs : List ReplyLogRow) :
    Except String (List ReplyLogRow) :=
  if logs.any (fun l => l.comment_id == r.comment_id) then
    Except.error "UNIQUE constraint failed: comment_id"
  else
    Except.ok (logs ++ [r])

/-- Embeds `mark_auto_replied` from instagram_service.py: insert a ledger row
only when no row for the pair exists yet. -/
def mark_auto_replied (cid uid : String) (logs : List ReplyLogRow) :
    Except String (List ReplyLogRow) :=
  if has_auto_reply cid uid logs then Except.ok logs
  else insertReplyLog ⟨cid, uid⟩ logs

/-- Repeated invocation of `mark_auto_replied` for a fixed pair; a failed
insert leaves the table unchanged (the session is rolled back). -/
def markIter (cid uid : String) : Nat → List ReplyLogRow → List ReplyLogRow
  | 0, logs => logs
  | k + 1, logs =>
    match mark_auto_replied cid uid logs with
    | Except.ok l => markIter cid uid k l
    | Except.error _ => markIter cid uid k logs

/-- Number of ledger rows for a given (comment id, instagram user id) pair. -/
def countPair (cid uid : String) (logs : List ReplyLogRow) : Nat :=
  (logs.filter (fun l => l.comment_id == cid && l.instagram_user_id == uid)).length

/- ## AI-response heuristics and eligibility filters -/

/-- The fixed canned-phrase list of
`InstagramAutoReplyService._is_ai_response`. -/
def igAiIndicators : List String :=
  [ "thanks for your comment"
  , "we appreciate your engagement"
  , "thank you for your comment"
  , "we" ++ apos ++ "re glad you"
  , "thanks for sharing"
  , "we love hearing from you"
  , "thanks! we" ++ apos ++ "re"
  , "we" ++ apos ++ "re excited"
  , "you can find it"
  , "let us know if"
  , "you" ++ apos ++ "re welcome"
  , "we appreciate your"
  , "thanks for the"
  , "thank you so much"
  , "we" ++ apos ++ "re so glad you"
  , "we love that you"
  , "feel free to reach out"
  , "don" ++ apos ++ "t hesitate to contact"
  , "we" ++ apos ++ "d love to hear"
  , "we" ++ apos ++ "re here to help" ]

/-- The mention-pattern list of `InstagramAutoReplyService._is_ai_response`,
matched only when the message contains an @ character. -/
def igAiMentionPatterns : List String :=
  [ "thanks for your comment"
  , "we appreciate your"
  , "thank you for"
  , "we" ++ apos ++ "re glad you"
  , "we love hearing" ]

/-- Embeds `InstagramAutoReplyService._is_ai_response`. -/
def ig_is_ai_response (message : String) : Bool :=
  if message.data.isEmpty then false
  else
    let m := strToLower message
    if igAiIndicators.any (fun ind => strContains m ind) then true
    else if strContains message "@" &&
        igAiMentionPatterns.any (fun ind => strContains m ind) then true
    else false

/-- A candidate Instagram comment as consumed by the auto-reply engine. -/
structure IGComment where
  id : String
  text : String
  commenterId : String
deriving DecidableEq, Repr

/-- Embeds `InstagramAutoReplyService._should_reply_to_comment`: skip own
comments, skip AI-looking text, skip already-replied comments, otherwise
reply. -/
def ig_should_reply (c : IGComment) (igUserId : String)
    (logs : List ReplyLogRow) : Bool :=
  if c.commenterId == igUserId then false
  else if ig_is_ai_response c.text then false
  else if has_auto_reply c.id igUserId logs then false
  else true

/-- The fixed canned-phrase list of `AutoReplyService._is_ai_response`
(Facebook flavour). -/
def fbAiIndicators : List String :=
  [ "thanks for your comment"
  , "we appreciate your engagement"
  , "thank you for"
  , "we" ++ apos ++ "re glad"
  , "thanks for sharing"
  , "we love hearing from you"
  , "thanks! we" ++ apos ++ "re"
  , "we" ++ apos ++ "re excited"
  , "you can find it"
  , "let us know if"
  , "you" ++ apos ++ "re welcome" ]

/-- Embeds `AutoReplyService._is_ai_response` (Facebook flavour): a canned
phrase anywhere, or a message whose trimmed text starts with an @ mention. -/
def fb_is_ai_response (message : String) : Bool :=
  if message.data.isEmpty then false
  else
    let m := strToLower message
    if fbAiIndicators.any (fun ind => strContains m ind) then true
    else if "@".data.isPrefixOf (trimChars message.data) then true
    else false

/-- A Facebook comment with optional parent (thread) pointer. -/
structure FBComment where
  id : String
  message : String
  fromId : String
  parent : Option String
deriving DecidableEq, Repr

/-- Outcome of fetching the parent comment from the Graph API. -/
inductive ParentFetch where
  | found (fromId : String) (message : String)
  | fetchError
deriving DecidableEq, Repr

/-- Embeds `AutoReplyService._should_reply_to_comment` (Facebook flavour):
skip if already replied; always reply to a top-level comment; for a reply,
reply back only when the parent is from the page and the parent text looks
AI-generated. -/
def fb_should_reply (c : FBComment) (pageId : String) (alreadyReplied : Bool)
    (parent : ParentFetch) : Bool :=
  if alreadyReplied then false
  else
    match c.parent with
    | none => true
    | some _ =>
      match parent with
      | ParentFetch.found pfrom pmsg =>
        if pfrom == pageId && fb_is_ai_response pmsg then true else false
      | ParentFetch.fetchError => false

/- ## Automation-rule bookkeeping and reply publication
(instagram_auto_reply_service.py `_generate_and_post_reply`) -/

/-- The execution-bookkeeping fields of an `AutomationRule` row. -/
structure RuleStats where
  success_count : Nat
  error_count : Nat
  last_success_at : Option Int
  last_error_at : Option Int
  last_error_message : Option String
deriving DecidableEq, Repr

/-- Outcome reported by `instagram_service.reply_to_comment`. -/
inductive ReplyOutcome where
  | ok (replyId : String)
  | err (msg : String)
deriving DecidableEq, Repr

/-- Embeds the commit phase of
`InstagramAutoReplyService._generate_and_post_reply`: on a confirmed
successful publish, record the ledger row and bump the success bookkeeping;
on a failed publish (or a failed ledger insert, which raises into the same
handler) bump the error bookkeeping and leave the ledger unchanged. -/
def generate_and_post_reply (cid uid : String) (outcome : ReplyOutcome)
    (now : Int) (logs : List ReplyLogRow) (st : RuleStats) :
    List ReplyLogRow × RuleStats :=
  match outcome with
  | ReplyOutcome.ok _ =>
    match mark_auto_replied cid uid logs with
    | Except.ok logs2 =>
      (logs2, { st with success_count := st.success_count + 1,
                        last_success_at := some now })
    | Except.error e =>
      (logs, { st with error_count := st.error_count + 1,
                       last_error_at := some now,
                       last_error_message := some e })
  | ReplyOutcome.err msg =>
    (logs, { st with error_count := st.error_count + 1,
                     last_error_at := some now,
                     last_error_message := some msg })

/- ## Notification delivery subsystem (notification_service.py) -/

/-- Kind of a `Notification` row. -/
inductive NotifType where
  | pre_posting
  | success
  | failure
deriving DecidableEq, Repr

/-- A row of the `notifications` table (fields relevant to dedup). -/
structure NotifRow where
  nid : Nat
  user_id : Nat
  post_id : Option Nat
  ntype : NotifType
  created_at : Int
deriving DecidableEq, Repr

/-- Python truthiness of an optional integer id (`if post_id:`). -/
def idTruthy (o : Option Nat) : Bool :=
  match o with
  | none => false
  | some p => p != 0

/-- The dedup query of `NotificationService.create_notification`: the first
`pre_posting` row for the same (user, post) created strictly after
`now - 15` minutes. -/
def findDupNotif (user : Nat) (post : Option Nat) (now : Int)
    (rows : List NotifRow) : Option NotifRow :=
  rows.find? (fun n =>
    n.user_id == user && n.post_id == post && n.ntype == NotifType.pre_posting &&
    decide (now - 15 < n.created_at))

/-- Row insertion; the fresh surrogate id is the current table length. -/
def insertNotif (user : Nat) (ntype : NotifType) (post : Option Nat)
    (now : Int) (rows : List NotifRow) : NotifRow × List NotifRow :=
  (⟨rows.length, user, post, ntype, now⟩,
   rows ++ [⟨rows.length, user, post, ntype, now⟩])

/-- Embeds the database part of `NotificationService.create_notification`:
for a `pre_posting` kind with a truthy linked post id, return an existing
row created within the 15-minute window instead of inserting a new one. -/
def create_notification (user : Nat) (ntype : NotifType) (post : Option Nat)
    (now : Int) (rows : List NotifRow) : NotifRow × List NotifRow :=
  if ntype == NotifType.pre_posting && idTruthy post then
    match findDupNotif user post now rows with
    | some n => (n, rows)
    | none => insertNotif user ntype post now rows
  else insertNotif user ntype post now rows

/-- Number of `pre_posting` rows for a (user, post) pair. -/
def countPre (user : Nat) (post : Option Nat) (rows : List NotifRow) : Nat :=
  (rows.filter (fun n =>
    n.user_id == user && n.post_id == post &&
    n.ntype == NotifType.pre_posting)).length

/-- Embeds the per-user body of
`NotificationService._process_pending_messages`: the queue is snapshotted
and cleared, the snapshot is sent in order, and on the first failed send
that message alone is put back at the front of the (now empty) queue and the
flush stops.  Returns (delivered messages in order, remaining queue). -/
def flushUser (sendOk : Nat → Bool) : List Nat → List Nat × List Nat
  | [] => ([], [])
  | m :: rest =>
    if sendOk m then
      (m :: (flushUser sendOk rest).1, (flushUser sendOk rest).2)
    else ([], [m])

/- ## Scheduled posts and the publication executor (scheduler_service.py) -/

/-- A row of the `scheduled_posts` table (fields used by the executor). -/
structure SPost where
  pid : Nat
  user_id : Nat
  social_account_id : Nat
  platform : String
  status : String
  is_active : Bool
  retry_count : Nat
  scheduled_datetime : Int
  last_executed : Option Int
  prompt : String
  post_type : String
  image_url : Option String
  media_urls : Option (List String)
  video_url : Option String
  reel_thumbnail_url : Option String
  post_id : Option String
deriving DecidableEq, Repr

/-- The due-post selection of `SchedulerService.process_scheduled_posts`. -/
def isDuePost (p : SPost) (now : Int) : Bool :=
  (p.status == "scheduled" || p.status == "ready") &&
  p.platform == "instagram" &&
  decide (p.scheduled_datetime ≤ now) &&
  p.is_active

/-- Embeds `SchedulerService.is_base64_image`. -/
def isBase64Image (s : String) : Bool :=
  "data:image/".data.isPrefixOf s.data

/-- The owning `SocialAccount` row as seen by the executor. -/
structure SAccount where
  id : Nat
  is_connected : Bool
  page_access_token : Option String
  platform_user_id : Option String
deriving DecidableEq, Repr

/-- Outcome of one `generate_and_upload_image` call. -/
inductive GenResult where
  | ok (url : String)
  | err (msg : String)
deriving DecidableEq, Repr

/-- Outcome of the Instagram publish call, as classified by the executor:
a success dict, a failure dict with an error message, a missing response
(`result` is None), or a raised exception. -/
inductive PublishOutcome where
  | ok (platformPostId : String)
  | err (msg : String)
  | noResp
  | exn (msg : String)
deriving DecidableEq, Repr

/-- External-collaborator oracle for one `execute_scheduled_instagram_post`
run: upload results, per-index carousel generation results, the account
lookup, and the publish outcome. -/
structure ExecEnv where
  b64upload : Option String
  photoGen : GenResult
  carouselGen : Nat → Option String
  thumbUpload : Option String
  account : Option SAccount
  publish : PublishOutcome

/-- Terminal failure: status `failed`, deactivated, execution stamped. -/
def markFailed (p : SPost) (now : Int) : SPost :=
  { p with status := "failed", is_active := false, last_executed := some now }

/-- The final-cleanup commit of the executor: deactivate and stamp. -/
def finalize (p : SPost) (now : Int) : SPost :=
  { p with is_active := false, last_executed := some now }

/-- Result of the media-resolution stage: either an early return with the
committed row, or fall-through with the updated row and the `has_media`
flag. -/
inductive MediaStep where
  | exit (p : SPost)
  | cont (p : SPost) (hasMedia : Bool)

/-- The base64-to-Cloudinary conversion stage for a photo post; `inr` is an
early failure exit. -/
def photoConvert (p : SPost) (env : ExecEnv) (now : Int) : Sum SPost SPost :=
  match p.image_url with
  | some u =>
    if isBase64Image u then
      match env.b64upload with
      | some url => Sum.inl { p with image_url := some url }
      | none => Sum.inr (markFailed p now)
    else Sum.inl p
  | none => Sum.inl p

/-- Media resolution for a photo post: base64 conversion, then AI image
generation when no url is present, with the rate-limit retry policy
(ceiling 5, linear 10-minute backoff). -/
def photoResolve (p : SPost) (env : ExecEnv) (now : Int) : MediaStep :=
  match photoConvert p env now with
  | Sum.inr q => MediaStep.exit q
  | Sum.inl p1 =>
    if optTruthy p1.image_url then MediaStep.cont p1 (optTruthy p1.image_url)
    else
      match env.photoGen with
      | GenResult.ok url =>
        MediaStep.cont { p1 with image_url := some url } (optTruthy (some url))
      | GenResult.err msg =>
        if strContains (strToLower msg) "rate limit" ||
            strContains (strToLower msg) "quota" then
          if p1.retry_count < 5 then
            MediaStep.exit
              { p1 with retry_count := p1.retry_count + 1,
                        scheduled_datetime := now + 10 * ((p1.retry_count : Int) + 1),
                        last_executed := some now }
          else MediaStep.cont p1 (optTruthy p1.image_url)
        else MediaStep.exit (markFailed p1 now)

/-- Number of carousel images the executor attempts to generate. -/
def carouselNumImages (prompt : String) : Nat :=
  min 5 (max 3 (prompt.length / 100 + 3))

/-- Media resolution for a carousel post: generate images, require at least
3; on zero successes apply the retry policy (ceiling 5), on a partial
result mark the post failed. -/
def carouselAfterGen (p : SPost) (urls : List String) (now : Int) : MediaStep :=
  if 3 ≤ urls.length then
    MediaStep.cont { p with media_urls := some urls } (!urls.isEmpty)
  else if urls.length == 0 then
    if p.retry_count < 5 then
      MediaStep.exit
        { p with retry_count := p.retry_count + 1,
                 scheduled_datetime := now + 10 * ((p.retry_count : Int) + 1),
                 last_executed := some now }
    else MediaStep.cont p (!(p.media_urls.getD []).isEmpty)
  else MediaStep.exit (markFailed p now)

/-- Media resolution for a carousel post (entry point): generate only when
no media urls are present. -/
def carouselResolve (p : SPost) (env : ExecEnv) (now : Int) : MediaStep :=
  if (p.media_urls.getD []).isEmpty then
    carouselAfterGen p
      ((List.range (carouselNumImages p.prompt)).filterMap env.carouselGen) now
  else MediaStep.cont p (!(p.media_urls.getD []).isEmpty)

/-- Media resolution for a reel post: AI video generation is unimplemented
and always fails, so a reel without a video url is marked failed; a base64
thumbnail is converted best-effort (failure is tolerated). -/
def reelResolve (p : SPost) (env : ExecEnv) (now : Int) : MediaStep :=
  if !optTruthy p.video_url then MediaStep.exit (markFailed p now)
  else
    match p.reel_thumbnail_url with
    | some t =>
      if isBase64Image t then
        match env.thumbUpload with
        | some url =>
          MediaStep.cont { p with reel_thumbnail_url := some url }
            (optTruthy p.video_url)
        | none => MediaStep.cont p (optTruthy p.video_url)
      else MediaStep.cont p (optTruthy p.video_url)
    | none => MediaStep.cont p (optTruthy p.video_url)

/-- Media-resolution dispatch on the post type; for any other type no
branch runs and `has_media` stays false. -/
def mediaResolve (p : SPost) (env : ExecEnv) (now : Int) : MediaStep :=
  if p.post_type == "photo" then photoResolve p env now
  else if p.post_type == "carousel" then carouselResolve p env now
  else if p.post_type == "reel" then reelResolve p env now
  else MediaStep.cont p false

/-- Transient-error keywords of the publish failure classifier. -/
def transientKeywords : List String :=
  ["rate limit", "temporarily unavailable", "try again later", "quota exceeded"]

/-- Media-error keywords of the publish failure classifier. -/
def mediaKeywords : List String :=
  ["media", "image", "video", "download", "fetch"]

/-- True when any keyword occurs in the lowered error message. -/
def containsAny (m : String) (ks : List String) : Bool :=
  ks.any (fun k => strContains m k)

/-- Clearing the resolved media reference so it is regenerated. -/
def clearMediaFor (p : SPost) : SPost :=
  if p.post_type == "photo" then { p with image_url := none }
  else if p.post_type == "carousel" then { p with media_urls := none }
  else if p.post_type == "reel" then { p with video_url := none }
  else p

/-- Embeds the publish stage of `execute_scheduled_instagram_post`: publish,
then on success mark posted and finalize; on failure classify the error
text (transient: retry ceiling 3 with 15-minute linear backoff; media:
clear media and retry in 5 minutes, ceiling 2; otherwise terminal). -/
def publishPhase (p : SPost) (env : ExecEnv) (now : Int) : SPost :=
  if p.post_type == "photo" || p.post_type == "carousel" || p.post_type == "reel" then
    match env.publish with
    | PublishOutcome.ok ppid =>
      finalize { p with status := "posted", post_id := some ppid } now
    | PublishOutcome.err msg =>
      if containsAny (strToLower msg) transientKeywords then
        if p.retry_count < 3 then
          { p with retry_count := p.retry_count + 1,
                   scheduled_datetime := now + 15 * ((p.retry_count : Int) + 1),
                   last_executed := some now }
        else finalize { p with status := "failed" } now
      else if containsAny (strToLower msg) mediaKeywords then
        if p.retry_count < 2 then
          { (clearMediaFor p) with
              retry_count := p.retry_count + 1,
              scheduled_datetime := now + 5,
              last_executed := some now }
        else finalize { p with status := "failed" } now
      else finalize { p with status := "failed" } now
    | PublishOutcome.noResp => finalize { p with status := "failed" } now
    | PublishOutcome.exn _ => finalize { p with status := "failed" } now
  else { p with status := "failed" }

/-- Embeds `SchedulerService.execute_scheduled_instagram_post` end to end:
caption validation, media resolution, account resolution, credential
check, publish, and final cleanup.  The account-missing and
account-not-connected paths return without touching the row; the
missing-credentials path sets status `failed` and returns before the final
cleanup, leaving `is_active` and `last_executed` untouched. -/
def executeOne (p : SPost) (env : ExecEnv) (now : Int) : SPost :=
  if p.prompt.data.isEmpty then markFailed p now
  else
    match mediaResolve p env now with
    | MediaStep.exit q => q
    | MediaStep.cont q hasMedia =>
      if !hasMedia then markFailed q now
      else
        match env.account with
        | none => q
        | some acct =>
          if !acct.is_connected then q
          else if !optTruthy acct.page_access_token ||
              !optTruthy acct.platform_user_id then
            { q with status := "failed" }
          else publishPhase q env now

/- ## Pre-posting alert deferred task (notification_service.py) -/

/-- Embeds the post-sleep body of
`NotificationService._send_delayed_scheduled_post_alert`: re-read the post;
emit the notification only when it is still scheduled and active, and only
then remove the in-memory guard entry.  Returns (notification rows, guard
set, whether the notification was emitted). -/
def sendDelayedAlert (fresh : Option SPost) (rows : List NotifRow)
    (alerts : List Nat) (now : Int) : List NotifRow × List Nat × Bool :=
  match fresh with
  | none => (rows, alerts, false)
  | some fp =>
    if fp.status == "scheduled" && fp.is_active then
      ((create_notification fp.user_id NotifType.pre_posting
          (some fp.pid) now rows).2,
       alerts.erase fp.pid, true)
    else (rows, alerts, false)

/- ## Shared concrete fixtures used by witnesses and counterexamples -/

/-- A due photo post with a resolved image url. -/
def exPost : SPost :=
  { pid := 1, user_id := 1, social_account_id := 2, platform := "instagram",
    status := "scheduled", is_active := true, retry_count := 0,
    scheduled_datetime := 0, last_executed := none, prompt := "hello",
    post_type := "photo", image_url := some "http://img", media_urls := none,
    video_url := none, reel_thumbnail_url := none, post_id := none }

/-- A connected account with full credentials. -/
def exAcct : SAccount :=
  { id := 2, is_connected := true, page_access_token := some "tok",
    platform_user_id := some "igu" }

/-- A connected account with no page access token. -/
def exAcctNoTok : SAccount :=
  { id := 2, is_connected := true, page_access_token := none,
    platform_user_id := some "igu" }

/-- An environment with a fixed account lookup and publish outcome. -/
def exEnv (a : Option SAccount) (pub : PublishOutcome) : ExecEnv :=
  { b64upload := none, photoGen := GenResult.err "boom",
    carouselGen := fun _ => none, thumbUpload := none,
    account := a, publish := pub }

/-- Environment whose publish attempt fails with a rate-limit error. -/
def exEnvTransient : ExecEnv :=
  exEnv (some exAcct) (PublishOutcome.err "Rate limit hit")

/-- A carousel post with no media urls and a short prompt. -/
def exCarousel : SPost :=
  { exPost with post_type := "carousel", image_url := none, prompt := "hi" }

/-- Environment in which exactly one carousel image generation succeeds. -/
def exCarouselEnv : ExecEnv :=
  { b64upload := none, photoGen := GenResult.err "x",
    carouselGen := fun i => if i == 0 then some "u0" else none,
    thumbUpload := none, account := some exAcct,
    publish := PublishOutcome.noResp }

/- ## Helper lemmas -/

theorem has_auto_reply_comment_any (cid uid : String) (logs : List ReplyLogRow)
    (h : logs.any (fun l => l.comment_id == cid) = false) :
    has_auto_reply cid uid logs = false := by
  unfold has_auto_reply
  rw [List.any_eq_false] at h ⊢
  intro l hl
  have := h l hl
  simp only [Bool.and_eq_true, beq_iff_eq] at *
  intro hc
  exact this hc.1

theorem has_auto_reply_append_self (cid uid : String) (logs : List ReplyLogRow) :
    has_auto_reply cid uid (logs ++ [⟨cid, uid⟩]) = true := by
  unfold has_auto_reply
  rw [List.any_append]
  simp

theorem markIter_of_replied (cid uid : String) (logs : List ReplyLogRow)
    (h : has_auto_reply cid uid logs = true) :
    ∀ k, markIter cid uid k logs = logs := by
  intro k
  induction k with
  | zero => rfl
  | succ n ih => simp [markIter, mark_auto_replied, h, ih]

theorem countPair_append_self (cid uid : String) (logs : List ReplyLogRow)
    (h : logs.any (fun l => l.comment_id == cid) = false) :
    countPair cid uid (logs ++ [⟨cid, uid⟩]) = 1 := by
  unfold countPair
  rw [List.filter_append]
  have hz : logs.filter (fun l => l.comment_id == cid && l.instagram_user_id == uid) = [] := by
    rw [List.filter_eq_nil_iff]
    intro l hl
    rw [List.any_eq_false] at h
    have := h l hl
    simp only [Bool.and_eq_true, beq_iff_eq] at *
    intro hc
    exact this hc.1
  rw [hz]
  simp

/- ## Claim C10 -/

/-- Claim C10: `mark_auto_replied` is idempotent at the interface: when a
row for the (comment id, account id) pair already exists, the call returns
the table unchanged and raises no error; and starting from a table with no
row for the comment id, any positive number of calls leaves exactly one row
for the pair, for which `has_auto_reply` returns true. -/
theorem claim_C10 (cid uid : String) (logs : List ReplyLogRow) (k : Nat) :
    (has_auto_reply cid uid logs = true →
      mark_auto_replied cid uid logs = Except.ok logs) ∧
    (logs.any (fun l => l.comment_id == cid) = false → 1 ≤ k →
      has_auto_reply cid uid (markIter cid uid k logs) = true ∧
      countPair cid uid (markIter cid uid k logs) = 1) := by
  constructor
  · intro h
    simp [mark_auto_replied, h]
  · intro h hk
    obtain ⟨j, rfl⟩ : ∃ j, k = j + 1 := ⟨k - 1, by omega⟩
    have hfirst : markIter cid uid (j + 1) logs = logs ++ [⟨cid, uid⟩] := by
      have hhar := has_auto_reply_comment_any cid uid logs h
      have hmark : mark_auto_replied cid uid logs =
          Except.ok (logs ++ [⟨cid, uid⟩]) := by
        simp [mark_auto_replied, hhar, insertReplyLog, h]
      simp only [markIter, hmark]
      exact markIter_of_replied cid uid (logs ++ [⟨cid, uid⟩])
        (has_auto_reply_append_self cid uid logs) j
    rw [hfirst]
    exact ⟨has_auto_reply_append_self cid uid logs,
      countPair_append_self cid uid logs h⟩

/-- Witness for claim C10 at a concrete table and pair. -/
theorem claim_C10_witness :
    mark_auto_replied "c1" "u1" [⟨"c1", "u1"⟩] = Except.ok [⟨"c1", "u1"⟩] ∧
    has_auto_reply "c1" "u1" (markIter "c1" "u1" 3 []) = true ∧
    countPair "c1" "u1" (markIter "c1" "u1" 3 []) = 1 :=
  ⟨(claim_C10 "c1" "u1" [⟨"c1", "u1"⟩] 3).1 (by decide),
   (claim_C10 "c1" "u1" [] 3).2 (by decide) (by decide)⟩

/- ## Claim C1 -/

/-- Claim C1: an engagement reply record is inserted if and only if the
platform reply publish confirms success: on success the ledger row is
inserted and the rule success counter and last-success timestamp are
updated; on failure no row is inserted (the comment stays eligible) and the
rule error counter and last-error fields are updated instead. -/
theorem claim_C1 (cid uid : String) (outcome : ReplyOutcome) (now : Int)
    (logs : List ReplyLogRow) (st : RuleStats)
    (h : logs.any (fun l => l.comment_id == cid) = false) :
    (∀ rid, outcome = ReplyOutcome.ok rid →
      generate_and_post_reply cid uid outcome now logs st =
        (logs ++ [⟨cid, uid⟩],
         { st with success_count := st.success_count + 1,
                   last_success_at := some now })) ∧
    (∀ msg, outcome = ReplyOutcome.err msg →
      generate_and_post_reply cid uid outcome now logs st =
        (logs, { st with error_count := st.error_count + 1,
                         last_error_at := some now,
                         last_error_message := some msg })) ∧
    (has_auto_reply cid uid
        (generate_and_post_reply cid uid outcome now logs st).1 = true ↔
      ∃ rid, outcome = ReplyOutcome.ok rid) := by
  have hhar := has_auto_reply_comment_any cid uid logs h
  have hmark : mark_auto_replied cid uid logs =
      Except.ok (logs ++ [⟨cid, uid⟩]) := by
    simp [mark_auto_replied, hhar, insertReplyLog, h]
  refine ⟨?_, ?_, ?_⟩
  · rintro rid rfl
    simp [generate_and_post_reply, hmark]
  · rintro msg rfl
    simp [generate_and_post_reply]
  · cases outcome with
    | ok rid =>
      simp only [generate_and_post_reply, hmark]
      simp [has_auto_reply_append_self cid uid logs]
    | err msg =>
      simp only [generate_and_post_reply]
      simp [hhar]

/-- Witness for claim C1 at a concrete comment on both outcomes. -/
theorem claim_C1_witness :
    generate_and_post_reply "c9" "u9" (ReplyOutcome.ok "r1") 5 []
        ⟨0, 0, none, none, none⟩ =
      ([⟨"c9", "u9"⟩], ⟨1, 0, some 5, none, none⟩) ∧
    generate_and_post_reply "c9" "u9" (ReplyOutcome.err "boom") 5 []
        ⟨0, 0, none, none, none⟩ =
      ([], ⟨0, 1, none, some 5, some "boom"⟩) :=
  ⟨(claim_C1 "c9" "u9" (ReplyOutcome.ok "r1") 5 [] ⟨0, 0, none, none, none⟩
      (by decide)).1 "r1" rfl,
   (claim_C1 "c9" "u9" (ReplyOutcome.err "boom") 5 [] ⟨0, 0, none, none, none⟩
      (by decide)).2.1 "boom" rfl⟩

/- ## Claim C5 -/

/-- Counterexample to claim C5: the Facebook eligibility filter applies the
AI-response heuristic only to the parent comment, so a first-time top-level
comment from another user whose own text matches the heuristic still gets
`true`, where the claim requires `false`. -/
theorem claim_C5_counterexample :
    fb_is_ai_response "thanks for your comment friends!" = true ∧
    fb_should_reply
      ⟨"c1", "thanks for your comment friends!", "u9", none⟩
      "page1" false ParentFetch.fetchError = true := by
  constructor
  · decide
  · rfl

/-- Claim C5 (amended): the Instagram filter returns false whenever the
comment text matches the AI-response heuristic and true for an ordinary
first-time comment from another user with no reply record; the Facebook
filter checks the heuristic only on the parent comment and returns true for
every not-yet-replied top-level comment regardless of its own text. -/
theorem claim_C5 :
    (∀ (c : IGComment) (igUserId : String) (logs : List ReplyLogRow),
      ig_is_ai_response c.text = true →
      ig_should_reply c igUserId logs = false) ∧
    (∀ (c : IGComment) (igUserId : String) (logs : List ReplyLogRow),
      (c.commenterId == igUserId) = false →
      ig_is_ai_response c.text = false →
      has_auto_reply c.id igUserId logs = false →
      ig_should_reply c igUserId logs = true) ∧
    (∀ (c : FBComment) (pageId : String) (parent : ParentFetch),
      c.parent = none →
      fb_should_reply c pageId false parent = true) := by
  refine ⟨?_, ?_, ?_⟩
  · intro c igUserId logs h
    unfold ig_should_reply
    rw [h]
    simp
  · intro c igUserId logs h1 h2 h3
    unfold ig_should_reply
    rw [h1, h2, h3]
    simp
  · intro c pageId parent h
    unfold fb_should_reply
    rw [h]
    simp

/-- Witness for claim C5 at concrete comments. -/
theorem claim_C5_witness :
    ig_should_reply ⟨"c2", "thanks for your comment friends!", "u9"⟩ "igu" [] = false ∧
    ig_should_reply ⟨"c3", "great shot!", "u9"⟩ "igu" [] = true ∧
    fb_should_reply ⟨"c4", "great shot!", "u9", none⟩ "page1" false
      ParentFetch.fetchError = true :=
  ⟨claim_C5.1 ⟨"c2", "thanks for your comment friends!", "u9"⟩ "igu" []
      (by decide),
   claim_C5.2.1 ⟨"c3", "great shot!", "u9"⟩ "igu" []
      (by decide) (by decide) (by decide),
   claim_C5.2.2 ⟨"c4", "great shot!", "u9", none⟩ "page1"
      ParentFetch.fetchError rfl⟩

/- ## Claim C6 -/

theorem find?_append_none {α : Type} (p : α → Bool) (l1 l2 : List α)
    (h : l1.find? p = none) : (l1 ++ l2).find? p = l2.find? p := by
  induction l1 with
  | nil => simp
  | cons a t ih =>
    rw [List.find?_eq_none] at h
    have hpa : p a = false := by
      have := h a (by simp)
      simpa using this
    have ht : t.find? p = none := by
      rw [List.find?_eq_none]
      intro x hx
      exact h x (by simp [hx])
    simpa [List.find?_cons, hpa] using ih ht

/-- The dedup-query predicate of `create_notification` without the time
window; its refutation on every row is equivalent to `countPre = 0`. -/
def preMatch (user : Nat) (post : Option Nat) (n : NotifRow) : Bool :=
  n.user_id == user && n.post_id == post && n.ntype == NotifType.pre_posting

theorem countPre_zero_no_match (user : Nat) (post : Option Nat)
    (rows : List NotifRow) (h : countPre user post rows = 0) :
    ∀ n ∈ rows, preMatch user post n = false := by
  unfold countPre at h
  rw [List.length_eq_zero, List.filter_eq_nil_iff] at h
  intro n hn
  have := h n hn
  unfold preMatch
  simpa using this

theorem findDup_none_of_countPre_zero (user : Nat) (post : Option Nat)
    (t : Int) (rows : List NotifRow) (h : countPre user post rows = 0) :
    findDupNotif user post t rows = none := by
  unfold findDupNotif
  rw [List.find?_eq_none]
  intro n hn
  have hm := countPre_zero_no_match user post rows h n hn
  unfold preMatch at hm
  intro hcon
  simp only [Bool.and_eq_true] at hcon
  simp [hcon.1.1.1, hcon.1.1.2, hcon.1.2] at hm

/-- Claim C6: `create_notification` deduplicates pre-posting alerts: with no
prior `pre_posting` row for the (user, post) pair, a first call inserts one
row, and a second call within the 15-minute window returns that existing
record, inserts nothing, and leaves exactly one `pre_posting` row for the
pair. -/
theorem claim_C6 (user pid : Nat) (t1 t2 : Int) (rows : List NotifRow)
    (hp : pid ≠ 0) (hc : countPre user (some pid) rows = 0)
    (hw : t2 - 15 < t1) :
    create_notification user NotifType.pre_posting (some pid) t2
        (create_notification user NotifType.pre_posting (some pid) t1 rows).2 =
      ((create_notification user NotifType.pre_posting (some pid) t1 rows).1,
       (create_notification user NotifType.pre_posting (some pid) t1 rows).2) ∧
    countPre user (some pid)
      (create_notification user NotifType.pre_posting (some pid) t2
        (create_notification user NotifType.pre_posting (some pid) t1 rows).2).2
      = 1 := by
  have hguard : (NotifType.pre_posting == NotifType.pre_posting &&
      idTruthy (some pid)) = true := by
    simp [idTruthy, hp]
  have h1 : create_notification user NotifType.pre_posting (some pid) t1 rows =
      (⟨rows.length, user, some pid, NotifType.pre_posting, t1⟩,
       rows ++ [⟨rows.length, user, some pid, NotifType.pre_posting, t1⟩]) := by
    unfold create_notification
    rw [hguard, findDup_none_of_countPre_zero user (some pid) t1 rows hc]
    rfl
  have h2 : findDupNotif user (some pid) t2
      (rows ++ [⟨rows.length, user, some pid, NotifType.pre_posting, t1⟩]) =
      some ⟨rows.length, user, some pid, NotifType.pre_posting, t1⟩ := by
    unfold findDupNotif
    rw [find?_append_none]
    · simp [List.find?, hw]
    · rw [List.find?_eq_none]
      intro n hn
      have hm := countPre_zero_no_match user (some pid) rows hc n hn
      unfold preMatch at hm
      intro hcon
      simp only [Bool.and_eq_true] at hcon
      simp [hcon.1.1.1, hcon.1.1.2, hcon.1.2] at hm
  have h3 : create_notification user NotifType.pre_posting (some pid) t2
      (rows ++ [⟨rows.length, user, some pid, NotifType.pre_posting, t1⟩]) =
      (⟨rows.length, user, some pid, NotifType.pre_posting, t1⟩,
       rows ++ [⟨rows.length, user, some pid, NotifType.pre_posting, t1⟩]) := by
    unfold create_notification
    rw [hguard, h2]
    rfl
  have hz : rows.filter (fun n : NotifRow =>
      n.user_id == user && n.post_id == some pid &&
      n.ntype == NotifType.pre_posting) = [] := by
    rw [List.filter_eq_nil_iff]
    intro n hn
    have hm := countPre_zero_no_match user (some pid) rows hc n hn
    unfold preMatch at hm
    simpa using hm
  constructor
  · rw [h1]
    dsimp only
    rw [h3]
  · rw [h1]
    dsimp only
    rw [h3]
    dsimp only
    unfold countPre
    rw [List.filter_append, hz]
    simp

/- ## Claim C6 witness -/

/-- Witness for claim C6: two pre-posting creations for post 7 of user 1,
ten minutes apart, yield one row. -/
theorem claim_C6_witness :
    create_notification 1 NotifType.pre_posting (some 7) 110
        (create_notification 1 NotifType.pre_posting (some 7) 100 []).2 =
      ((create_notification 1 NotifType.pre_posting (some 7) 100 []).1,
       (create_notification 1 NotifType.pre_posting (some 7) 100 []).2) ∧
    countPre 1 (some 7)
      (create_notification 1 NotifType.pre_posting (some 7) 110
        (create_notification 1 NotifType.pre_posting (some 7) 100 []).2).2 = 1 :=
  claim_C6 1 7 100 110 [] (by decide) (by decide) (by decide)

/- ## Claim C7 -/

/-- Counterexample to claim C7: with queue [1, 2] and the send of message 1
failing, the flush re-queues message 1 but message 2 is neither delivered
nor left in the queue: a queued message is lost by a partial flush. -/
theorem claim_C7_counterexample :
    flushUser (fun m => decide (m ≠ 1)) [1, 2] = ([], [1]) ∧
    ¬(2 ∈ (flushUser (fun m => decide (m ≠ 1)) [1, 2]).1 ∨
      2 ∈ (flushUser (fun m => decide (m ≠ 1)) [1, 2]).2) := by
  constructor
  · rfl
  · decide

/-- Claim C7 (amended): when every send succeeds the flush delivers the
whole queue in original FIFO order and the queue empties; in general the
delivered messages followed by the re-queued remainder form a prefix of the
original queue (no reordering), and the remainder is at most the single
first failed message — messages positioned after a failed send in the
drained batch are dropped, not re-queued. -/
theorem claim_C7 :
    (∀ (sendOk : Nat → Bool) (q : List Nat),
      (∀ m ∈ q, sendOk m = true) → flushUser sendOk q = (q, [])) ∧
    (∀ (sendOk : Nat → Bool) (q : List Nat),
      (flushUser sendOk q).1 ++ (flushUser sendOk q).2 <+: q) ∧
    (∀ (sendOk : Nat → Bool) (q : List Nat) (m : Nat),
      (flushUser sendOk q).2 = [m] → sendOk m = false ∧ m ∈ q) := by
  refine ⟨?_, ?_, ?_⟩
  · intro sendOk q h
    induction q with
    | nil => rfl
    | cons a rest ih =>
      have ha : sendOk a = true := h a (by simp)
      have hrest := ih (fun m hm => h m (by simp [hm]))
      simp [flushUser, ha, hrest]
  · intro sendOk q
    induction q with
    | nil => exact ⟨[], rfl⟩
    | cons a rest ih =>
      cases ha : sendOk a with
      | true =>
        obtain ⟨t, ht⟩ := ih
        exact ⟨t, by simp [flushUser, ha]; simpa using ht⟩
      | false =>
        exact ⟨rest, by simp [flushUser, ha]⟩
  · intro sendOk q
    induction q with
    | nil => intro x hx; simp [flushUser] at hx
    | cons a rest ih =>
      intro m hm
      cases ha : sendOk a with
      | true =>
        simp only [flushUser, ha, if_true] at hm
        have := ih m hm
        exact ⟨this.1, by simp [this.2]⟩
      | false =>
        simp only [flushUser, ha, if_false] at hm
        have : a = m := by simpa using hm
        subst this
        exact ⟨ha, by simp⟩

/-- Witness for claim C7: a fully successful flush of [1, 2, 3]. -/
theorem claim_C7_witness :
    flushUser (fun _ => true) [1, 2, 3] = ([1, 2, 3], []) :=
  claim_C7.1 (fun _ => true) [1, 2, 3] (fun _ _ => rfl)

/- ## Claim C8 -/

/-- A post in a terminal state, as re-read by the deferred alert task. -/
def exDonePost : SPost := { exPost with status := "posted" }

/-- Counterexample to claim C8: when the re-read post is no longer in
scheduled state, the deferred task neither emits nor clears the in-memory
guard entry for the post id, where the claim requires the guard to be
cleared in all cases. -/
theorem claim_C8_counterexample :
    exDonePost.status = "posted" ∧
    (sendDelayedAlert (some exDonePost) [] [exDonePost.pid] 5).2.1 =
      [exDonePost.pid] ∧
    (sendDelayedAlert (some exDonePost) [] [exDonePost.pid] 5).2.2 = false := by
  refine ⟨rfl, rfl, rfl⟩

/-- Claim C8 (amended): the deferred task re-reads the post and emits the
notification only if the post is still scheduled and active; the in-memory
guard entry is cleared in exactly that emitting case, and is left in place
when the post is missing or no longer scheduled and active. -/
theorem claim_C8 :
    (∀ (rows : List NotifRow) (alerts : List Nat) (now : Int),
      sendDelayedAlert none rows alerts now = (rows, alerts, false)) ∧
    (∀ (fp : SPost) (rows : List NotifRow) (alerts : List Nat) (now : Int),
      fp.status = "scheduled" → fp.is_active = true →
      sendDelayedAlert (some fp) rows alerts now =
        ((create_notification fp.user_id NotifType.pre_posting
            (some fp.pid) now rows).2,
         alerts.erase fp.pid, true)) ∧
    (∀ (fp : SPost) (rows : List NotifRow) (alerts : List Nat) (now : Int),
      ¬(fp.status = "scheduled" ∧ fp.is_active = true) →
      sendDelayedAlert (some fp) rows alerts now = (rows, alerts, false)) := by
  refine ⟨?_, ?_, ?_⟩
  · intro rows alerts now
    rfl
  · intro fp rows alerts now h1 h2
    unfold sendDelayedAlert
    simp [h1, h2]
  · intro fp rows alerts now h
    have hg : (fp.status == "scheduled" && fp.is_active) = false := by
      cases hx : (fp.status == "scheduled" && fp.is_active) with
      | false => rfl
      | true =>
        rw [Bool.and_eq_true, beq_iff_eq] at hx
        exact absurd ⟨hx.1, hx.2⟩ h
    simp only [sendDelayedAlert]
    rw [hg]
    simp

/-- Witness for claim C8: the emitting case at a live scheduled post and
the missing-post case. -/
theorem claim_C8_witness :
    sendDelayedAlert (some exPost) [] [1] 5 =
      ((create_notification exPost.user_id NotifType.pre_posting
          (some exPost.pid) 5 []).2, List.erase [1] exPost.pid, true) ∧
    sendDelayedAlert none [] [3] 0 = ([], [3], false) :=
  ⟨claim_C8.2.1 exPost [] [1] 5 rfl rfl, claim_C8.1 [] [3] 0⟩

/- ## Executor frame lemmas -/

/-- The post fields that media resolution never touches: everything except
the media references. -/
def coreFieldsEq (q p : SPost) : Prop :=
  q.status = p.status ∧ q.is_active = p.is_active ∧
  q.retry_count = p.retry_count ∧
  q.scheduled_datetime = p.scheduled_datetime ∧
  q.last_executed = p.last_executed ∧ q.platform = p.platform ∧
  q.post_type = p.post_type

theorem coreFieldsEq_refl (p : SPost) : coreFieldsEq p p :=
  ⟨rfl, rfl, rfl, rfl, rfl, rfl, rfl⟩

theorem coreFieldsEq_trans {a b c : SPost}
    (h1 : coreFieldsEq a b) (h2 : coreFieldsEq b c) : coreFieldsEq a c := by
  unfold coreFieldsEq at *
  exact ⟨h1.1.trans h2.1, h1.2.1.trans h2.2.1, h1.2.2.1.trans h2.2.2.1,
    h1.2.2.2.1.trans h2.2.2.2.1, h1.2.2.2.2.1.trans h2.2.2.2.2.1,
    h1.2.2.2.2.2.1.trans h2.2.2.2.2.2.1, h1.2.2.2.2.2.2.trans h2.2.2.2.2.2.2⟩

/-- The due-post query only reads core fields. -/
theorem isDuePost_congr {q p : SPost} (h : coreFieldsEq q p) (t : Int) :
    isDuePost q t = isDuePost p t := by
  unfold isDuePost
  rw [h.1, h.2.1, h.2.2.2.1, h.2.2.2.2.2.1]

/-- Invariant of the base64-conversion stage: a continue keeps the core
fields, an early exit is exactly the failure commit. -/
def convertOk (p : SPost) (now : Int) : Sum SPost SPost → Prop
  | Sum.inl q => coreFieldsEq q p
  | Sum.inr q => q = markFailed p now

theorem photoConvert_ok (p : SPost) (env : ExecEnv) (now : Int) :
    convertOk p now (photoConvert p env now) := by
  unfold photoConvert
  split
  · split
    · split
      · exact ⟨rfl, rfl, rfl, rfl, rfl, rfl, rfl⟩
      · rfl
    · exact coreFieldsEq_refl p
  · exact coreFieldsEq_refl p

/-- Invariant of a media-resolution step: an exit is either the failure
commit or a retry reschedule that keeps status and active flag; a continue
keeps all core fields. -/
def mediaStepFrame (p : SPost) : MediaStep → Prop
  | MediaStep.exit q =>
      (q.status = "failed" ∧ q.is_active = false) ∨
      (q.status = p.status ∧ q.is_active = p.is_active)
  | MediaStep.cont q _ => coreFieldsEq q p

theorem photoResolve_frame (p : SPost) (env : ExecEnv) (now : Int) :
    mediaStepFrame p (photoResolve p env now) := by
  have hc := photoConvert_ok p env now
  unfold photoResolve
  split
  · rename_i r heq
    rw [heq] at hc
    left
    rw [hc]
    exact ⟨rfl, rfl⟩
  · rename_i p1 heq
    rw [heq] at hc
    split
    · exact hc
    · split
      · exact coreFieldsEq_trans ⟨rfl, rfl, rfl, rfl, rfl, rfl, rfl⟩ hc
      · split
        · split
          · right
            exact ⟨hc.1, hc.2.1⟩
          · exact hc
        · left
          exact ⟨rfl, rfl⟩

theorem carouselAfterGen_frame (p : SPost) (urls : List String) (now : Int) :
    mediaStepFrame p (carouselAfterGen p urls now) := by
  unfold carouselAfterGen
  split
  · exact ⟨rfl, rfl, rfl, rfl, rfl, rfl, rfl⟩
  · split
    · split
      · right
        exact ⟨rfl, rfl⟩
      · exact coreFieldsEq_refl p
    · left
      exact ⟨rfl, rfl⟩

theorem carouselResolve_frame (p : SPost) (env : ExecEnv) (now : Int) :
    mediaStepFrame p (carouselResolve p env now) := by
  unfold carouselResolve
  split
  · exact carouselAfterGen_frame p _ now
  · exact coreFieldsEq_refl p

theorem reelResolve_frame (p : SPost) (env : ExecEnv) (now : Int) :
    mediaStepFrame p (reelResolve p env now) := by
  unfold reelResolve
  split
  · left
    exact ⟨rfl, rfl⟩
  · split
    · split
      · split
        · exact ⟨rfl, rfl, rfl, rfl, rfl, rfl, rfl⟩
        · exact coreFieldsEq_refl p
      · exact coreFieldsEq_refl p
    · exact coreFieldsEq_refl p

theorem mediaResolve_frame (p : SPost) (env : ExecEnv) (now : Int) :
    mediaStepFrame p (mediaResolve p env now) := by
  unfold mediaResolve
  split
  · exact photoResolve_frame p env now
  · split
    · exact carouselResolve_frame p env now
    · split
      · exact reelResolve_frame p env now
      · exact coreFieldsEq_refl p

theorem mediaResolve_cont (p : SPost) (env : ExecEnv) (now : Int)
    (q : SPost) (b : Bool)
    (h : mediaResolve p env now = MediaStep.cont q b) : coreFieldsEq q p := by
  have hf := mediaResolve_frame p env now
  rw [h] at hf
  exact hf

theorem mediaResolve_exit (p : SPost) (env : ExecEnv) (now : Int)
    (q : SPost) (h : mediaResolve p env now = MediaStep.exit q) :
    (q.status = "failed" ∧ q.is_active = false) ∨
    (q.status = p.status ∧ q.is_active = p.is_active) := by
  have hf := mediaResolve_frame p env now
  rw [h] at hf
  exact hf

/-- When the post type is none of photo, carousel or reel, media resolution
is a no-op with `has_media = false`. -/
theorem mediaResolve_other (p : SPost) (env : ExecEnv) (now : Int)
    (h1 : (p.post_type == "photo") = false)
    (h2 : (p.post_type == "carousel") = false)
    (h3 : (p.post_type == "reel") = false) :
    mediaResolve p env now = MediaStep.cont p false := by
  unfold mediaResolve
  rw [h1, h2, h3]
  simp

theorem mediaResolve_cont_true_type (p : SPost) (env : ExecEnv) (now : Int)
    (q : SPost) (h : mediaResolve p env now = MediaStep.cont q true) :
    q.post_type = "photo" ∨ q.post_type = "carousel" ∨ q.post_type = "reel" := by
  have hcore := mediaResolve_cont p env now q true h
  by_cases h1 : (p.post_type == "photo") = true
  · left
    rw [hcore.2.2.2.2.2.2]
    exact eq_of_beq h1
  · by_cases h2 : (p.post_type == "carousel") = true
    · right; left
      rw [hcore.2.2.2.2.2.2]
      exact eq_of_beq h2
    · by_cases h3 : (p.post_type == "reel") = true
      · right; right
        rw [hcore.2.2.2.2.2.2]
        exact eq_of_beq h3
      · rw [mediaResolve_other p env now (by simpa using h1)
          (by simpa using h2) (by simpa using h3)] at h
        cases h

/- ## Publish-phase lemmas -/

theorem clearMediaFor_core (p : SPost) : coreFieldsEq (clearMediaFor p) p := by
  unfold clearMediaFor
  split
  · exact ⟨rfl, rfl, rfl, rfl, rfl, rfl, rfl⟩
  · split
    · exact ⟨rfl, rfl, rfl, rfl, rfl, rfl, rfl⟩
    · split
      · exact ⟨rfl, rfl, rfl, rfl, rfl, rfl, rfl⟩
      · exact coreFieldsEq_refl p

/-- Invariant of the publish stage: either the result is deactivated (the
terminal paths), or it is a retry reschedule keeping status and the active
flag. -/
def pubFrame (q r : SPost) : Prop :=
  r.is_active = false ∨ (r.status = q.status ∧ r.is_active = q.is_active)

theorem publishPhase_frame (q : SPost) (env : ExecEnv) (now : Int)
    (htriad : (q.post_type == "photo" || q.post_type == "carousel" ||
      q.post_type == "reel") = true) :
    pubFrame q (publishPhase q env now) := by
  unfold publishPhase
  rw [htriad]
  simp only [if_true]
  split
  · left; rfl
  · split
    · split
      · right; exact ⟨rfl, rfl⟩
      · left; rfl
    · split
      · split
        · right
          exact ⟨(clearMediaFor_core q).1, (clearMediaFor_core q).2.1⟩
        · left; rfl
      · left; rfl
  · left; rfl
  · left; rfl

theorem publishPhase_terminal (q : SPost) (env : ExecEnv) (now : Int)
    (htype : q.post_type = "photo" ∨ q.post_type = "carousel" ∨
      q.post_type = "reel")
    (hs1 : q.status ≠ "posted") (hs2 : q.status ≠ "failed")
    (hterm : (publishPhase q env now).status = "posted" ∨
      (publishPhase q env now).status = "failed") :
    (publishPhase q env now).is_active = false := by
  have hb : (q.post_type == "photo" || q.post_type == "carousel" ||
      q.post_type == "reel") = true := by
    rcases htype with h | h | h <;> simp [h]
  rcases publishPhase_frame q env now hb with hf | hf
  · exact hf
  · rcases hterm with h | h
    · exact absurd (hf.1.symm.trans h) hs1
    · exact absurd (hf.1.symm.trans h) hs2

/- ## Executor routing lemmas -/

theorem executeOne_no_prompt (p : SPost) (env : ExecEnv) (now : Int)
    (h : p.prompt.data.isEmpty = true) :
    executeOne p env now = markFailed p now := by
  unfold executeOne
  rw [h]
  rfl

theorem executeOne_exit (p : SPost) (env : ExecEnv) (now : Int) (q : SPost)
    (hpr : p.prompt.data.isEmpty = false)
    (hm : mediaResolve p env now = MediaStep.exit q) :
    executeOne p env now = q := by
  unfold executeOne
  rw [hpr, hm]
  rfl

theorem executeOne_no_media (p : SPost) (env : ExecEnv) (now : Int)
    (q : SPost) (hpr : p.prompt.data.isEmpty = false)
    (hm : mediaResolve p env now = MediaStep.cont q false) :
    executeOne p env now = markFailed q now := by
  unfold executeOne
  rw [hpr, hm]
  rfl

theorem executeOne_account_gone (p : SPost) (env : ExecEnv) (now : Int)
    (q : SPost) (hpr : p.prompt.data.isEmpty = false)
    (hm : mediaResolve p env now = MediaStep.cont q true)
    (hacc : env.account = none ∨
      ∃ a, env.account = some a ∧ a.is_connected = false) :
    executeOne p env now = q := by
  unfold executeOne
  rw [hpr, hm]
  rcases hacc with h | ⟨a, ha, hc⟩
  · rw [h]
    rfl
  · rw [ha]
    simp [hc]

theorem executeOne_no_creds (p : SPost) (env : ExecEnv) (now : Int)
    (q : SPost) (a : SAccount) (hpr : p.prompt.data.isEmpty = false)
    (hm : mediaResolve p env now = MediaStep.cont q true)
    (ha : env.account = some a) (hc : a.is_connected = true)
    (hcred : optTruthy a.page_access_token = false ∨
      optTruthy a.platform_user_id = false) :
    executeOne p env now = { q with status := "failed" } := by
  unfold executeOne
  rw [hpr, hm, ha]
  rcases hcred with h | h <;> simp [hc, h]

theorem executeOne_publish (p : SPost) (env : ExecEnv) (now : Int)
    (q : SPost) (a : SAccount) (hpr : p.prompt.data.isEmpty = false)
    (hm : mediaResolve p env now = MediaStep.cont q true)
    (ha : env.account = some a) (hc : a.is_connected = true)
    (ht1 : optTruthy a.page_access_token = true)
    (ht2 : optTruthy a.platform_user_id = true) :
    executeOne p env now = publishPhase q env now := by
  unfold executeOne
  rw [hpr, hm, ha]
  simp [hc, ht1, ht2]

/- ## Claim C2 -/

/-- Counterexample to claim C2: a due photo post whose connected account is
missing its page access token is marked `failed` but keeps
`is_active = true` — a terminal-state-setting path on which the active flag
is not cleared. -/
theorem claim_C2_counterexample :
    (executeOne exPost (exEnv (some exAcctNoTok) PublishOutcome.noResp) 7).status
      = "failed" ∧
    (executeOne exPost (exEnv (some exAcctNoTok) PublishOutcome.noResp) 7).is_active
      = true :=
  ⟨rfl, rfl⟩

/-- Claim C2 (amended): a terminal (`posted` or `failed`) post is never
re-selected by the due-post query, so its state never changes again; and on
every execution path from a `scheduled` post that reaches a terminal state,
`is_active` becomes false — except the missing-credentials path (account
found and connected but page token or platform user id absent), which sets
status `failed` while leaving `is_active` untouched. -/
theorem claim_C2 :
    (∀ (p : SPost) (now : Int),
      p.status = "posted" ∨ p.status = "failed" → isDuePost p now = false) ∧
    (∀ (p : SPost) (env : ExecEnv) (now : Int),
      p.status = "scheduled" →
      (∀ a, env.account = some a → a.is_connected = true →
        optTruthy a.page_access_token = true ∧
        optTruthy a.platform_user_id = true) →
      ((executeOne p env now).status = "posted" ∨
       (executeOne p env now).status = "failed") →
      (executeOne p env now).is_active = false) := by
  constructor
  · intro p now h
    unfold isDuePost
    rcases h with h | h <;> rw [h] <;> rfl
  · intro p env now hs hcred hterm
    cases hpr : p.prompt.data.isEmpty with
    | true =>
      rw [executeOne_no_prompt p env now hpr]
      rfl
    | false =>
      cases hmr : mediaResolve p env now with
      | exit q =>
        rw [executeOne_exit p env now q hpr hmr] at hterm ⊢
        rcases mediaResolve_exit p env now q hmr with ⟨_, h2⟩ | ⟨h1, _⟩
        · exact h2
        · rw [h1, hs] at hterm
          rcases hterm with h | h <;> exact absurd h (by decide)
      | cont q b =>
        have hcore := mediaResolve_cont p env now q b hmr
        cases b with
        | false =>
          rw [executeOne_no_media p env now q hpr hmr]
          rfl
        | true =>
          cases hacc : env.account with
          | none =>
            rw [executeOne_account_gone p env now q hpr hmr (Or.inl hacc)]
              at hterm
            rw [hcore.1, hs] at hterm
            rcases hterm with h | h <;> exact absurd h (by decide)
          | some a =>
            cases hconn : a.is_connected with
            | false =>
              rw [executeOne_account_gone p env now q hpr hmr
                (Or.inr ⟨a, hacc, hconn⟩)] at hterm
              rw [hcore.1, hs] at hterm
              rcases hterm with h | h <;> exact absurd h (by decide)
            | true =>
              obtain ⟨ht1, ht2⟩ := hcred a hacc hconn
              rw [executeOne_publish p env now q a hpr hmr hacc hconn ht1 ht2]
                at hterm ⊢
              refine publishPhase_terminal q env now
                (mediaResolve_cont_true_type p env now q hmr) ?_ ?_ hterm
              · rw [hcore.1, hs]
                decide
              · rw [hcore.1, hs]
                decide

/-- Witness for claim C2 at a due photo post whose publish raises. -/
theorem claim_C2_witness :
    (executeOne exPost (exEnv (some exAcct) (PublishOutcome.exn "boom")) 7).is_active
      = false :=
  claim_C2.2 exPost (exEnv (some exAcct) (PublishOutcome.exn "boom")) 7 rfl
    (fun a ha _ => by cases ha; exact ⟨rfl, rfl⟩)
    (Or.inr rfl)

/- ## Claim C9 -/

/-- A due photo post with no media reference yet. -/
def exNoMediaPost : SPost := { exPost with image_url := none }

/-- Counterexample to claim C9: a due post whose owning account is missing
is still mutated when media resolution fails first — the failure commit
happens before the account is ever consulted. -/
theorem claim_C9_counterexample :
    (exEnv none PublishOutcome.noResp).account = none ∧
    exNoMediaPost.status = "scheduled" ∧
    (executeOne exNoMediaPost (exEnv none PublishOutcome.noResp) 7).status
      = "failed" :=
  ⟨rfl, rfl, rfl⟩

/-- Claim C9 (amended): for a due post whose media is already resolved (so
execution reaches the account-resolution step), a missing or unconnected
owning account aborts the item without touching status, the active flag,
the retry count, the scheduled timestamp or the last-execution stamp, and
the post is selected by the due-post query exactly as before; if media
resolution fails first, the post row can be mutated before the account is
consulted. -/
theorem claim_C9 (p : SPost) (env : ExecEnv) (now : Int) (q : SPost)
    (hprompt : p.prompt.data.isEmpty = false)
    (hm : mediaResolve p env now = MediaStep.cont q true)
    (hacc : env.account = none ∨
      ∃ a, env.account = some a ∧ a.is_connected = false) :
    coreFieldsEq (executeOne p env now) p ∧
    ∀ t, isDuePost (executeOne p env now) t = isDuePost p t := by
  rw [executeOne_account_gone p env now q hprompt hm hacc]
  have hc := mediaResolve_cont p env now q true hm
  exact ⟨hc, fun t => isDuePost_congr hc t⟩

/-- Witness for claim C9 at a due resolved post with a missing account. -/
theorem claim_C9_witness :
    coreFieldsEq (executeOne exPost (exEnv none PublishOutcome.noResp) 7) exPost ∧
    ∀ t, isDuePost (executeOne exPost (exEnv none PublishOutcome.noResp) 7) t =
      isDuePost exPost t :=
  claim_C9 exPost (exEnv none PublishOutcome.noResp) 7 exPost rfl rfl
    (Or.inl rfl)

/- ## Claim C3 -/

theorem publishPhase_transient_retry (q : SPost) (env : ExecEnv) (now : Int)
    (msg : String)
    (htriad : (q.post_type == "photo" || q.post_type == "carousel" ||
      q.post_type == "reel") = true)
    (hp : env.publish = PublishOutcome.err msg)
    (hk : containsAny (strToLower msg) transientKeywords = true)
    (hr : q.retry_count < 3) :
    publishPhase q env now =
      { q with retry_count := q.retry_count + 1,
               scheduled_datetime := now + 15 * ((q.retry_count : Int) + 1),
               last_executed := some now } := by
  unfold publishPhase
  rw [htriad, hp]
  simp [hk, hr]

theorem publishPhase_transient_ceiling (q : SPost) (env : ExecEnv) (now : Int)
    (msg : String)
    (htriad : (q.post_type == "photo" || q.post_type == "carousel" ||
      q.post_type == "reel") = true)
    (hp : env.publish = PublishOutcome.err msg)
    (hk : containsAny (strToLower msg) transientKeywords = true)
    (hr : 3 ≤ q.retry_count) :
    publishPhase q env now = finalize { q with status := "failed" } now := by
  have hnr : ¬ q.retry_count < 3 := by omega
  unfold publishPhase
  rw [htriad, hp]
  simp [hk, hnr]

/-- First to fourth executions of the shared fixture post under a
rate-limited publisher, each at a due instant. -/
def exRun1 : SPost := executeOne exPost exEnvTransient 0

def exRun2 : SPost := executeOne exRun1 exEnvTransient 30

def exRun3 : SPost := executeOne exRun2 exEnvTransient 60

def exRun4 : SPost := executeOne exRun3 exEnvTransient 120

/-- Claim C3: a transient publish failure (error text containing a
rate-limit, try-again or quota keyword) under the ceiling of 3 increments
the retry count by 1, reschedules to now plus 15 minutes times the new
retry count, and leaves the state `scheduled`; the rescheduled timestamp
strictly increases on every due retry, and the post is marked `failed`
exactly on the attempt at which the retry count has reached the ceiling,
as the concrete four-failure run also exhibits. -/
theorem claim_C3 :
    (∀ (p : SPost) (env : ExecEnv) (now : Int) (q : SPost) (a : SAccount)
        (msg : String),
      p.prompt.data.isEmpty = false →
      mediaResolve p env now = MediaStep.cont q true →
      env.account = some a → a.is_connected = true →
      optTruthy a.page_access_token = true →
      optTruthy a.platform_user_id = true →
      env.publish = PublishOutcome.err msg →
      containsAny (strToLower msg) transientKeywords = true →
      p.status = "scheduled" →
      ((p.retry_count < 3 →
        executeOne p env now =
          { q with retry_count := p.retry_count + 1,
                   scheduled_datetime := now + 15 * ((p.retry_count : Int) + 1),
                   last_executed := some now } ∧
        (executeOne p env now).status = "scheduled" ∧
        (p.scheduled_datetime ≤ now →
          p.scheduled_datetime < (executeOne p env now).scheduled_datetime)) ∧
       (3 ≤ p.retry_count →
        (executeOne p env now).status = "failed" ∧
        (executeOne p env now).is_active = false))) ∧
    (exRun1.scheduled_datetime = 15 ∧ exRun2.scheduled_datetime = 60 ∧
     exRun3.scheduled_datetime = 105 ∧ exRun3.status = "scheduled" ∧
     exRun3.retry_count = 3 ∧ exRun4.status = "failed" ∧
     exRun4.is_active = false ∧
     exPost.scheduled_datetime < exRun1.scheduled_datetime ∧
     exRun1.scheduled_datetime < exRun2.scheduled_datetime ∧
     exRun2.scheduled_datetime < exRun3.scheduled_datetime) := by
  constructor
  · intro p env now q a msg hpr hm ha hc ht1 ht2 hp hk hs
    have hepub := executeOne_publish p env now q a hpr hm ha hc ht1 ht2
    have hcore := mediaResolve_cont p env now q true hm
    have hb : (q.post_type == "photo" || q.post_type == "carousel" ||
        q.post_type == "reel") = true := by
      rcases mediaResolve_cont_true_type p env now q hm with h | h | h <;>
        simp [h]
    constructor
    · intro hr
      have hr' : q.retry_count < 3 := by rw [hcore.2.2.1]; exact hr
      have hstep := publishPhase_transient_retry q env now msg hb hp hk hr'
      rw [hepub, hstep]
      refine ⟨?_, ?_, ?_⟩
      · rw [hcore.2.2.1]
      · exact hcore.1.trans hs
      · intro hd
        show p.scheduled_datetime < now + 15 * ((q.retry_count : Int) + 1)
        have hq : (0 : Int) ≤ (q.retry_count : Int) := Int.natCast_nonneg _
        omega
    · intro hr
      have hr' : 3 ≤ q.retry_count := by rw [hcore.2.2.1]; exact hr
      have hstep := publishPhase_transient_ceiling q env now msg hb hp hk hr'
      rw [hepub, hstep]
      exact ⟨rfl, rfl⟩
  · refine ⟨rfl, rfl, rfl, rfl, rfl, rfl, rfl, by decide, by decide, by decide⟩

/-- Witness for claim C3: the first rate-limited attempt of the fixture
post reschedules it 15 minutes out with retry count 1, still scheduled. -/
theorem claim_C3_witness :
    executeOne exPost exEnvTransient 0 =
      { exPost with retry_count := exPost.retry_count + 1,
                    scheduled_datetime := 0 + 15 * ((exPost.retry_count : Int) + 1),
                    last_executed := some 0 } ∧
    (executeOne exPost exEnvTransient 0).status = "scheduled" := by
  have h := ((claim_C3.1 exPost exEnvTransient 0 exPost exAcct "Rate limit hit"
    rfl rfl rfl rfl rfl rfl rfl (by decide) rfl).1 (by decide))
  exact ⟨h.1, h.2.1⟩

/- ## Claim C4 -/

theorem mediaResolve_carousel (p : SPost) (env : ExecEnv) (now : Int)
    (htype : p.post_type = "carousel")
    (hmedia : (p.media_urls.getD []).isEmpty = true) :
    mediaResolve p env now =
      carouselAfterGen p
        ((List.range (carouselNumImages p.prompt)).filterMap env.carouselGen)
        now := by
  unfold mediaResolve carouselResolve
  rw [htype, hmedia]
  rfl

theorem carouselAfterGen_zero_retry (p : SPost) (urls : List String)
    (now : Int) (h0 : urls.length = 0) (hr : p.retry_count < 5) :
    carouselAfterGen p urls now = MediaStep.exit
      { p with retry_count := p.retry_count + 1,
               scheduled_datetime := now + 10 * ((p.retry_count : Int) + 1),
               last_executed := some now } := by
  unfold carouselAfterGen
  rw [h0]
  simp [hr]

theorem carouselAfterGen_zero_ceiling (p : SPost) (urls : List String)
    (now : Int) (h0 : urls.length = 0) (hr : 5 ≤ p.retry_count)
    (hmedia : (p.media_urls.getD []).isEmpty = true) :
    carouselAfterGen p urls now = MediaStep.cont p false := by
  have hnr : ¬ p.retry_count < 5 := by omega
  unfold carouselAfterGen
  rw [h0, hmedia]
  simp [hnr]

theorem carouselAfterGen_underMin (p : SPost) (urls : List String) (now : Int)
    (h1 : 0 < urls.length) (h3 : urls.length < 3) :
    carouselAfterGen p urls now = MediaStep.exit (markFailed p now) := by
  have hn3 : ¬ 3 ≤ urls.length := by omega
  have hn0 : (urls.length == 0) = false := by
    simp only [beq_eq_false_iff_ne]
    omega
  unfold carouselAfterGen
  simp [hn3, hn0]

/-- A due carousel post (short prompt, so 3 images are required) with no
media urls and retry count 0. -/
theorem claim_C4_counterexample :
    carouselNumImages exCarousel.prompt = 3 ∧
    ((List.range 3).filterMap exCarouselEnv.carouselGen).length = 1 ∧
    exCarousel.retry_count = 0 ∧
    (executeOne exCarousel exCarouselEnv 7).status = "failed" ∧
    (executeOne exCarousel exCarouselEnv 7).is_active = false ∧
    (executeOne exCarousel exCarouselEnv 7).retry_count = 0 := by
  refine ⟨rfl, rfl, rfl, rfl, rfl, rfl⟩

/-- Claim C4 (amended): for a due carousel post with no media references,
generating fewer than 3 images is a resolution failure and never a partial
post; but the retry policy (increment under ceiling 5, linear 10-minute
backoff) applies only when zero images were generated — when 1 or 2 of the
3 images succeed, the post is marked `failed` immediately regardless of its
retry count. -/
theorem claim_C4 (p : SPost) (env : ExecEnv) (now : Int) (urls : List String)
    (hpr : p.prompt.data.isEmpty = false)
    (htype : p.post_type = "carousel")
    (hmedia : (p.media_urls.getD []).isEmpty = true)
    (hs : p.status = "scheduled")
    (hu : (List.range (carouselNumImages p.prompt)).filterMap env.carouselGen
      = urls) :
    (urls.length = 0 → p.retry_count < 5 →
      executeOne p env now =
        { p with retry_count := p.retry_count + 1,
                 scheduled_datetime := now + 10 * ((p.retry_count : Int) + 1),
                 last_executed := some now } ∧
      (executeOne p env now).status = "scheduled") ∧
    (urls.length = 0 → 5 ≤ p.retry_count →
      (executeOne p env now).status = "failed" ∧
      (executeOne p env now).is_active = false) ∧
    (0 < urls.length → urls.length < 3 →
      executeOne p env now = markFailed p now ∧
      (executeOne p env now).retry_count = p.retry_count) ∧
    (urls.length < 3 → (executeOne p env now).status ≠ "posted") := by
  have hdisp : mediaResolve p env now = carouselAfterGen p urls now := by
    rw [mediaResolve_carousel p env now htype hmedia, hu]
  have hzr : urls.length = 0 → p.retry_count < 5 →
      executeOne p env now =
        { p with retry_count := p.retry_count + 1,
                 scheduled_datetime := now + 10 * ((p.retry_count : Int) + 1),
                 last_executed := some now } := by
    intro h0 hr
    exact executeOne_exit p env now _ hpr
      (hdisp.trans (carouselAfterGen_zero_retry p urls now h0 hr))
  have hzc : urls.length = 0 → 5 ≤ p.retry_count →
      executeOne p env now = markFailed p now := by
    intro h0 hr
    exact executeOne_no_media p env now p hpr
      (hdisp.trans (carouselAfterGen_zero_ceiling p urls now h0 hr hmedia))
  have hpart : 0 < urls.length → urls.length < 3 →
      executeOne p env now = markFailed p now := by
    intro h1 h3
    exact executeOne_exit p env now _ hpr
      (hdisp.trans (carouselAfterGen_underMin p urls now h1 h3))
  refine ⟨?_, ?_, ?_, ?_⟩
  · intro h0 hr
    refine ⟨hzr h0 hr, ?_⟩
    rw [hzr h0 hr]
    exact hs
  · intro h0 hr
    rw [hzc h0 hr]
    exact ⟨rfl, rfl⟩
  · intro h1 h3
    refine ⟨hpart h1 h3, ?_⟩
    rw [hpart h1 h3]
    rfl
  · intro h3
    rcases Nat.eq_zero_or_pos urls.length with h0 | h1
    · rcases Nat.lt_or_ge p.retry_count 5 with hr | hr
      · rw [hzr h0 hr]
        show p.status ≠ "posted"
        rw [hs]
        decide
      · rw [hzc h0 hr]
        show ("failed" : String) ≠ "posted"
        decide
    · rw [hpart h1 h3]
      show ("failed" : String) ≠ "posted"
      decide

/-- Witness for claim C4: the partial-generation case at the concrete
fixture, and the zero-generation retry case. -/
theorem claim_C4_witness :
    executeOne exCarousel exCarouselEnv 7 = markFailed exCarousel 7 ∧
    executeOne exCarousel (exEnv (some exAcct) PublishOutcome.noResp) 7 =
      { exCarousel with retry_count := exCarousel.retry_count + 1,
                        scheduled_datetime := 7 + 10 * ((exCarousel.retry_count : Int) + 1),
                        last_executed := some 7 } := by
  have h1 := (claim_C4 exCarousel exCarouselEnv 7 ["u0"]
    rfl rfl rfl rfl rfl).2.2.1 (by decide) (by decide)
  have h2 := (claim_C4 exCarousel (exEnv (some exAcct) PublishOutcome.noResp) 7
    [] rfl rfl rfl rfl rfl).1 rfl (by decide)
  exact ⟨h1.1, h2.1⟩
